import Mathlib

/-!
# Verification of the FitZone GPS activity-tracking and geospatial-math core

This file gives a shallow embedding, over the real numbers, of the core of
the `fitzoneconquer` repository:

* the map-algorithms module (`src/lib/mapAlgorithms.ts`): Web-Mercator
  projection (`latLngToWorldPoint`), haversine distance
  (`haversineDistanceMeters`), exponential-moving-average path smoothing
  (`smoothGpsPath`) and place ranking (`rankNearbyPlaces`);
* the activity-tracking hook (`src/hooks/useActivityTracking.ts`):
  the haversine variant `calculateDistance`, the calorie formula
  `calculateCalories`, the per-fix update effect (embedded as `processFix`),
  and the control operations `startActivity`, `pauseActivity`,
  `resumeActivity`, `stopActivity`.

JavaScript `number` arithmetic is modelled by `ℝ`; `Math.sin`, `Math.cos`,
`Math.atan2`, `Math.asin`, `Math.sqrt` and `Math.log` by the corresponding
real functions (`Math.atan2` is spelled out as `atan2` below, following the
standard definition of the two-argument arctangent on the reals).
React state plus the mutable refs of the hook are combined into one
`Session` record, and each external asynchronous event (an accepted
geolocation fix, the outcome of the one-shot position query, the outcome of
the persistence call) is passed to the corresponding transition function as
an explicit argument.
-/

open Real

/-- A latitude/longitude pair (interface `LatLng` of `mapAlgorithms.ts`). -/
structure LatLng where
  lat : ℝ
  lng : ℝ

/-- A projected world-pixel point (interface `ProjectedPoint`). -/
structure ProjectedPoint where
  x : ℝ
  y : ℝ

/-- A geolocation fix (interface `Coordinates` of `useGeolocation.ts`):
latitude and longitude in degrees plus the optional fields the repository
reads from it (`accuracy`, `timestamp`, `speed`). -/
structure Coordinates where
  lat : ℝ
  lng : ℝ
  accuracy : Option ℝ
  timestamp : Option ℝ
  speed : Option ℝ

/-- Shorthand for a fix carrying only a position, as produced by the tests
and used as concrete inputs below. -/
def mkCoord (lat lng : ℝ) : Coordinates :=
  { lat := lat, lng := lng, accuracy := none, timestamp := none, speed := none }

/-- The local helper `toRad` of `haversineDistanceMeters` in
`mapAlgorithms.ts`: `(v * Math.PI) / 180`. -/
noncomputable def toRad (v : ℝ) : ℝ :=
  v * Real.pi / 180

/-- `toRadians` of `useActivityTracking.ts`: `degrees * (Math.PI / 180)`. -/
noncomputable def toRadians (degrees : ℝ) : ℝ :=
  degrees * (Real.pi / 180)

/-- The two-argument arctangent, the real-number counterpart of JavaScript
`Math.atan2(y, x)`. -/
noncomputable def atan2 (y x : ℝ) : ℝ :=
  if 0 < x then Real.arctan (y / x)
  else if x < 0 then
    if 0 ≤ y then Real.arctan (y / x) + Real.pi
    else Real.arctan (y / x) - Real.pi
  else
    if 0 < y then Real.pi / 2
    else if y < 0 then -(Real.pi / 2)
    else 0

/-- The `TILE_SIZE` constant of `mapAlgorithms.ts`. -/
def TILE_SIZE : ℝ := 256

/-- `latLngToWorldPoint` of `mapAlgorithms.ts`: Web-Mercator projection of a
latitude/longitude pair to world-pixel space at an integer zoom level.  The
latitude is clamped to ±85.05112878 degrees before projecting. -/
noncomputable def latLngToWorldPoint (point : LatLng) (zoom : ℕ) : ProjectedPoint :=
  let scale : ℝ := TILE_SIZE * 2 ^ zoom
  let clampedLat := max (-85.05112878) (min 85.05112878 point.lat)
  let sinLat := Real.sin (clampedLat * Real.pi / 180)
  { x := (point.lng + 180) / 360 * scale
    y := (0.5 - Real.log ((1 + sinLat) / (1 - sinLat)) / (4 * Real.pi)) * scale }

/-- The haversine quantity `h` computed inside `haversineDistanceMeters` of
`mapAlgorithms.ts`. -/
noncomputable def haversineH (a b : LatLng) : ℝ :=
  let dLat := toRad (b.lat - a.lat)
  let dLng := toRad (b.lng - a.lng)
  let lat1 := toRad a.lat
  let lat2 := toRad b.lat
  Real.sin (dLat / 2) ^ 2 + Real.cos lat1 * Real.cos lat2 * Real.sin (dLng / 2) ^ 2

/-- `haversineDistanceMeters` of `mapAlgorithms.ts`: great-circle distance
with Earth radius `R = 6371e3`, returned as `2 * R * asin(sqrt h)`. -/
noncomputable def haversineDistanceMeters (a b : LatLng) : ℝ :=
  2 * 6371e3 * Real.arcsin (Real.sqrt (haversineH a b))

/-- The quantity `a` computed inside `calculateDistance` of
`useActivityTracking.ts` (written with the source's repeated products). -/
noncomputable def calculateDistanceA (coord1 coord2 : Coordinates) : ℝ :=
  let dLat := toRadians (coord2.lat - coord1.lat)
  let dLng := toRadians (coord2.lng - coord1.lng)
  Real.sin (dLat / 2) * Real.sin (dLat / 2) +
    Real.cos (toRadians coord1.lat) * Real.cos (toRadians coord2.lat) *
      Real.sin (dLng / 2) * Real.sin (dLng / 2)

/-- `calculateDistance` of `useActivityTracking.ts`: haversine distance with
`R = 6371000` and `c = 2 * atan2(sqrt a, sqrt (1 - a))`. -/
noncomputable def calculateDistance (coord1 coord2 : Coordinates) : ℝ :=
  let a := calculateDistanceA coord1 coord2
  let c := 2 * atan2 (Real.sqrt a) (Real.sqrt (1 - a))
  6371000 * c

/-! ## Basic facts about the haversine quantities -/

/-- The generic haversine sum `sin²((y-x)/2) + cos x · cos y · u` is a convex
combination of `(1 - cos (y-x))/2` and `(1 + cos (x+y))/2` whenever
`u ∈ [0,1]`, hence lies in `[0,1]` for all real `x`, `y`. -/
theorem haversineTerm_mem_Icc (x y u : ℝ) (hu0 : 0 ≤ u) (hu1 : u ≤ 1) :
    Real.sin ((y - x) / 2) ^ 2 + Real.cos x * Real.cos y * u ∈ Set.Icc (0 : ℝ) 1 := by
  have h3 : Real.cos (y - x) = 1 - 2 * Real.sin ((y - x) / 2) ^ 2 := by
    have h := Real.sin_sq_add_cos_sq ((y - x) / 2)
    have h4 := Real.cos_two_mul' ((y - x) / 2)
    rw [show 2 * ((y - x) / 2) = y - x by ring] at h4
    nlinarith
  have h1 : Real.cos (y - x) = Real.cos y * Real.cos x + Real.sin y * Real.sin x :=
    Real.cos_sub y x
  have h2 : Real.cos (x + y) = Real.cos x * Real.cos y - Real.sin x * Real.sin y :=
    Real.cos_add x y
  have key : Real.sin ((y - x) / 2) ^ 2 + Real.cos x * Real.cos y * u =
      (1 - u) * ((1 - Real.cos (y - x)) / 2) + u * ((1 + Real.cos (x + y)) / 2) := by
    linear_combination (1 / 2) * h3 - (u / 2) * h1 - (u / 2) * h2
  rw [key]
  constructor
  · nlinarith [Real.cos_le_one (y - x), Real.neg_one_le_cos (y - x),
      Real.cos_le_one (x + y), Real.neg_one_le_cos (x + y)]
  · nlinarith [Real.cos_le_one (y - x), Real.neg_one_le_cos (y - x),
      Real.cos_le_one (x + y), Real.neg_one_le_cos (x + y)]

theorem haversineH_eq (a b : LatLng) :
    haversineH a b =
      Real.sin ((toRad b.lat - toRad a.lat) / 2) ^ 2 +
        Real.cos (toRad a.lat) * Real.cos (toRad b.lat) *
          Real.sin (toRad (b.lng - a.lng) / 2) ^ 2 := by
  unfold haversineH toRad
  rw [show (b.lat - a.lat) * Real.pi / 180 =
      b.lat * Real.pi / 180 - a.lat * Real.pi / 180 by ring]

theorem haversineH_mem_Icc (a b : LatLng) : haversineH a b ∈ Set.Icc (0 : ℝ) 1 := by
  rw [haversineH_eq]
  exact haversineTerm_mem_Icc (toRad a.lat) (toRad b.lat) _
    (sq_nonneg _) (Real.sin_sq_le_one _)

theorem calculateDistanceA_eq (c1 c2 : Coordinates) :
    calculateDistanceA c1 c2 =
      Real.sin ((toRadians c2.lat - toRadians c1.lat) / 2) ^ 2 +
        Real.cos (toRadians c1.lat) * Real.cos (toRadians c2.lat) *
          Real.sin (toRadians (c2.lng - c1.lng) / 2) ^ 2 := by
  unfold calculateDistanceA toRadians
  rw [show (c2.lat - c1.lat) * (Real.pi / 180) =
      c2.lat * (Real.pi / 180) - c1.lat * (Real.pi / 180) by ring]
  ring

theorem calculateDistanceA_mem_Icc (c1 c2 : Coordinates) :
    calculateDistanceA c1 c2 ∈ Set.Icc (0 : ℝ) 1 := by
  rw [calculateDistanceA_eq]
  exact haversineTerm_mem_Icc (toRadians c1.lat) (toRadians c2.lat) _
    (sq_nonneg _) (Real.sin_sq_le_one _)

theorem atan2_nonneg {y x : ℝ} (hy : 0 ≤ y) (hx : 0 ≤ x) : 0 ≤ atan2 y x := by
  unfold atan2
  rcases lt_or_eq_of_le hx with hx' | hx'
  · rw [if_pos hx']
    have h := Real.arctan_strictMono.monotone (div_nonneg hy hx'.le)
    simpa [Real.arctan_zero] using h
  · have hx0 : x = 0 := hx'.symm
    subst hx0
    rw [if_neg (lt_irrefl 0), if_neg (lt_irrefl 0)]
    rcases lt_or_eq_of_le hy with hy' | hy'
    · rw [if_pos hy']
      positivity
    · rw [if_neg (by linarith), if_neg (by linarith)]

theorem atan2_le_pi_div_two {y x : ℝ} (hx : 0 ≤ x) : atan2 y x ≤ Real.pi / 2 := by
  unfold atan2
  rcases lt_or_eq_of_le hx with hx' | hx'
  · rw [if_pos hx']
    exact (Real.arctan_lt_pi_div_two _).le
  · have hx0 : x = 0 := hx'.symm
    subst hx0
    rw [if_neg (lt_irrefl 0), if_neg (lt_irrefl 0)]
    rcases lt_trichotomy y 0 with hy | hy | hy
    · rw [if_neg (by linarith), if_pos hy]
      nlinarith [Real.pi_pos]
    · rw [if_neg (by linarith), if_neg (by linarith)]
      positivity
    · rw [if_pos hy]

theorem atan2_zero_one : atan2 0 1 = 0 := by
  unfold atan2
  rw [if_pos one_pos]
  simp [Real.arctan_zero]

theorem haversineH_comm (a b : LatLng) : haversineH a b = haversineH b a := by
  simp only [haversineH, toRad]
  rw [show (a.lat - b.lat) * Real.pi / 180 = -((b.lat - a.lat) * Real.pi / 180) by ring,
    show (a.lng - b.lng) * Real.pi / 180 = -((b.lng - a.lng) * Real.pi / 180) by ring,
    neg_div, Real.sin_neg, neg_div, Real.sin_neg]
  ring

theorem haversineDistanceMeters_comm (a b : LatLng) :
    haversineDistanceMeters a b = haversineDistanceMeters b a := by
  unfold haversineDistanceMeters
  rw [haversineH_comm]

theorem haversineH_self (a : LatLng) : haversineH a a = 0 := by
  unfold haversineH toRad
  simp

theorem haversineDistanceMeters_self (a : LatLng) : haversineDistanceMeters a a = 0 := by
  unfold haversineDistanceMeters
  rw [haversineH_self]
  simp

theorem haversineDistanceMeters_nonneg (a b : LatLng) :
    0 ≤ haversineDistanceMeters a b := by
  unfold haversineDistanceMeters
  have h := Real.arcsin_nonneg.mpr (Real.sqrt_nonneg (haversineH a b))
  positivity

theorem haversineDistanceMeters_le (a b : LatLng) :
    haversineDistanceMeters a b ≤ 6371e3 * Real.pi := by
  unfold haversineDistanceMeters
  have h := Real.arcsin_le_pi_div_two (Real.sqrt (haversineH a b))
  nlinarith [Real.pi_pos]

theorem calculateDistanceA_comm (c1 c2 : Coordinates) :
    calculateDistanceA c1 c2 = calculateDistanceA c2 c1 := by
  simp only [calculateDistanceA, toRadians]
  rw [show (c1.lat - c2.lat) * (Real.pi / 180) = -((c2.lat - c1.lat) * (Real.pi / 180)) by ring,
    show (c1.lng - c2.lng) * (Real.pi / 180) = -((c2.lng - c1.lng) * (Real.pi / 180)) by ring,
    neg_div, Real.sin_neg, neg_div, Real.sin_neg]
  ring

theorem calculateDistance_comm (c1 c2 : Coordinates) :
    calculateDistance c1 c2 = calculateDistance c2 c1 := by
  unfold calculateDistance
  rw [calculateDistanceA_comm]

theorem calculateDistanceA_self (c : Coordinates) : calculateDistanceA c c = 0 := by
  unfold calculateDistanceA toRadians
  simp

theorem calculateDistance_self (c : Coordinates) : calculateDistance c c = 0 := by
  unfold calculateDistance
  rw [calculateDistanceA_self]
  simp [atan2_zero_one]

theorem calculateDistance_nonneg (c1 c2 : Coordinates) :
    0 ≤ calculateDistance c1 c2 := by
  unfold calculateDistance
  have h := atan2_nonneg (Real.sqrt_nonneg (calculateDistanceA c1 c2))
    (Real.sqrt_nonneg (1 - calculateDistanceA c1 c2))
  positivity

theorem calculateDistance_le (c1 c2 : Coordinates) :
    calculateDistance c1 c2 ≤ 6371000 * Real.pi := by
  simp only [calculateDistance]
  have h := atan2_le_pi_div_two (y := Real.sqrt (calculateDistanceA c1 c2))
    (Real.sqrt_nonneg (1 - calculateDistanceA c1 c2))
  nlinarith [Real.pi_pos]

/-- On the equator `calculateDistance` evaluates in closed form: the distance
between longitudes `x` and `y` (with `0 ≤ y - x < 180`) is
`6371000 * (y - x) * π / 180` meters.  Used to build concrete accepted fixes
with known distances. -/
theorem calculateDistance_equator (x y : ℝ) (hxy : x ≤ y) (hlt : y - x < 180) :
    calculateDistance (mkCoord 0 x) (mkCoord 0 y) = 6371000 * ((y - x) * Real.pi / 180) := by
  have hpi := Real.pi_pos
  set t : ℝ := (y - x) * (Real.pi / 180) / 2 with ht
  have ht0 : 0 ≤ t := by
    rw [ht]
    have : 0 ≤ y - x := by linarith
    positivity
  have htlt : t < Real.pi / 2 := by
    rw [ht]
    nlinarith
  have hA : calculateDistanceA (mkCoord 0 x) (mkCoord 0 y) = Real.sin t * Real.sin t := by
    simp only [calculateDistanceA, toRadians, mkCoord]
    rw [show (0 : ℝ) - 0 = 0 by ring]
    simp [Real.sin_zero, Real.cos_zero]
  have hsin : 0 ≤ Real.sin t :=
    Real.sin_nonneg_of_nonneg_of_le_pi ht0 (by linarith)
  have hcos : 0 < Real.cos t :=
    Real.cos_pos_of_mem_Ioo ⟨by linarith, htlt⟩
  have hsq : Real.sqrt (calculateDistanceA (mkCoord 0 x) (mkCoord 0 y)) = Real.sin t := by
    rw [hA, show Real.sin t * Real.sin t = Real.sin t ^ 2 by ring, Real.sqrt_sq hsin]
  have hsq2 : Real.sqrt (1 - calculateDistanceA (mkCoord 0 x) (mkCoord 0 y)) = Real.cos t := by
    rw [hA, show (1 : ℝ) - Real.sin t * Real.sin t = Real.cos t ^ 2 by
      have h := Real.sin_sq_add_cos_sq t
      nlinarith, Real.sqrt_sq hcos.le]
  have hatan : atan2 (Real.sin t) (Real.cos t) = t := by
    unfold atan2
    rw [if_pos hcos, ← Real.tan_eq_sin_div_cos, Real.arctan_tan (by linarith) htlt]
  simp only [calculateDistance]
  rw [hsq, hsq2, hatan, ht]
  ring

/-! ## Path smoothing (`smoothGpsPath` of `mapAlgorithms.ts`) -/

/-- One step of the exponential moving average: the point pushed by the loop
body of `smoothGpsPath` given the previous smoothed point and the current raw
fix.  Position is filtered; `accuracy` and `timestamp` are carried through
from the raw fix (the object literal sets no `speed`). -/
def smoothStep (alpha : ℝ) (prev cur : Coordinates) : Coordinates :=
  { lat := prev.lat + alpha * (cur.lat - prev.lat)
    lng := prev.lng + alpha * (cur.lng - prev.lng)
    accuracy := cur.accuracy
    timestamp := cur.timestamp
    speed := none }

/-- The fold performed by the `for` loop of `smoothGpsPath`, of the remaining
raw fixes, threading the previous smoothed point. -/
def smoothFrom (alpha : ℝ) (prev : Coordinates) : List Coordinates → List Coordinates
  | [] => []
  | cur :: rest => smoothStep alpha prev cur :: smoothFrom alpha (smoothStep alpha prev cur) rest

/-- `smoothGpsPath` of `mapAlgorithms.ts`: returns the path unchanged when it
has at most two points, otherwise seeds the output with the first fix and
applies the exponential moving average to the rest. -/
def smoothGpsPath (path : List Coordinates) (alpha : ℝ) : List Coordinates :=
  if path.length ≤ 2 then path
  else
    match path with
    | [] => path
    | p0 :: rest => p0 :: smoothFrom alpha p0 rest

theorem smoothFrom_length (alpha : ℝ) (prev : Coordinates) (l : List Coordinates) :
    (smoothFrom alpha prev l).length = l.length := by
  induction l generalizing prev with
  | nil => rfl
  | cons c cs ih => simp [smoothFrom, ih]

/-- Consecutive elements of the smoothed list satisfy the EMA recurrence:
element `i+1` is `smoothStep` of element `i` and raw fix `i` of the tail. -/
theorem smoothFrom_consecutive (alpha : ℝ) :
    ∀ (l : List Coordinates) (prev : Coordinates) (i : ℕ) (a b c : Coordinates),
      (prev :: smoothFrom alpha prev l)[i]? = some a →
      (prev :: smoothFrom alpha prev l)[i + 1]? = some b →
      l[i]? = some c →
      b = smoothStep alpha a c := by
  intro l
  induction l with
  | nil =>
    intro prev i a b c _ _ hc
    simp at hc
  | cons c0 cs ih =>
    intro prev i a b c hA hB hC
    cases i with
    | zero =>
      simp only [smoothFrom, List.getElem?_cons_zero, List.getElem?_cons_succ,
        Option.some.injEq] at hA hB hC
      rw [← hA, ← hC, hB.symm]
    | succ j =>
      rw [List.getElem?_cons_succ] at hA hB hC
      simp only [smoothFrom] at hA hB
      exact ih (smoothStep alpha prev c0) j a b c hA hB hC

/-! ## Place ranking (`rankNearbyPlaces` of `mapAlgorithms.ts`) -/

/-- Place categories accepted by the ranker. -/
inductive PlaceType where
  | gym
  | park
  | trail
deriving DecidableEq

/-- A candidate place handed to `rankNearbyPlaces`. -/
structure PlaceCandidate where
  id : String
  name : String
  type : PlaceType
  location : LatLng
  rating : Option ℝ

/-- A ranked place (interface `RankedPlace`): the candidate annotated with a
composite `score` and its `distanceMeters` from the reference location. -/
structure RankedPlace extends PlaceCandidate where
  score : ℝ
  distanceMeters : ℝ

/-- The `typeWeight` lookup table inside `rankNearbyPlaces`. -/
def typeWeight : PlaceType → ℝ
  | .gym => 0.75
  | .park => 1
  | .trail => 0.95

/-- The body of the `map` inside `rankNearbyPlaces`: annotate one candidate
with `distanceMeters` and `score` (missing rating defaults to `4`). -/
noncomputable def annotate (user : LatLng) (place : PlaceCandidate) : RankedPlace :=
  let distanceMeters := haversineDistanceMeters user place.location
  let distanceScore := 1 / (1 + distanceMeters / 1000)
  let ratingScore := place.rating.getD 4 / 5
  { toPlaceCandidate := place
    score := distanceScore * 0.6 + ratingScore * 0.25 + typeWeight place.type * 0.15
    distanceMeters := distanceMeters }

/-- The comparator `(a, b) => b.score - a.score` of the JavaScript `sort`,
as the total Boolean relation "has at least the score of". -/
noncomputable def rankLE (a b : RankedPlace) : Bool :=
  decide (b.score ≤ a.score)

/-- `rankNearbyPlaces` of `mapAlgorithms.ts`: annotate every candidate, sort
descending by score and truncate to `limit`.  JavaScript `Array.sort` is
stable, which `List.mergeSort` models. -/
noncomputable def rankNearbyPlaces (user : LatLng) (places : List PlaceCandidate)
    (limit : ℕ) : List RankedPlace :=
  (((places.map (annotate user)).mergeSort rankLE).take limit)

theorem rankLE_trans (a b c : RankedPlace) :
    rankLE a b → rankLE b c → rankLE a c := by
  simp only [rankLE, decide_eq_true_eq]
  exact fun h1 h2 => le_trans h2 h1

theorem rankLE_total (a b : RankedPlace) : rankLE a b || rankLE b a := by
  simp only [rankLE, Bool.or_eq_true, decide_eq_true_eq]
  exact le_total b.score a.score

/-! ## The activity-tracking state machine (`useActivityTracking.ts`) -/

/-- Activity kinds (`'run' | 'walk' | 'cycle'`). -/
inductive ActivityType where
  | run
  | walk
  | cycle
deriving DecidableEq

/-- The React state of the hook (interface `ActivityState`).  `startTime` is
the wall-clock start instant (milliseconds), `none` while idle. -/
structure ActivityState where
  isTracking : Bool
  isPaused : Bool
  activityType : Option ActivityType
  path : List Coordinates
  distance : ℝ
  duration : ℕ
  calories : ℝ
  loops : ℕ
  startTime : Option ℝ
  currentSpeed : ℝ

/-- The hook's full mutable session: the React state together with the three
refs `lastPositionRef`, `startPositionRef` and `loopCheckDistanceRef`. -/
structure Session where
  state : ActivityState
  lastPosition : Option Coordinates
  startPosition : Option Coordinates
  loopCheckDistance : ℝ

/-- The `MET_VALUES` table of `useActivityTracking.ts`. -/
def MET_VALUES : ActivityType → ℝ
  | .run => 10
  | .walk => 3.5
  | .cycle => 7

/-- `calculateCalories` of `useActivityTracking.ts`:
`MET × weight(70 kg) × duration(hours)`; the distance argument is unused in
the source (`_distanceMeters`). -/
noncomputable def calculateCalories (activityType : ActivityType)
    (durationSeconds : ℕ) (_distanceMeters : ℝ) : ℝ :=
  MET_VALUES activityType * 70 * ((durationSeconds : ℝ) / 3600)

/-- `calculateCalories` lifted to an optional activity type.  While tracking,
`activityType` is always set (the source asserts this with `prev.activityType!`);
the `none` case is unreachable there and mapped to `0`. -/
noncomputable def calculateCaloriesOpt (activityType : Option ActivityType)
    (durationSeconds : ℕ) (distanceMeters : ℝ) : ℝ :=
  match activityType with
  | some t => calculateCalories t durationSeconds distanceMeters
  | none => 0

/-- The position-processing effect of `useActivityTracking.ts` (lines
110-167), applied to one incoming fix.  It does nothing unless the session
is tracking and not paused; the first fix only seeds `path` and the two
position refs; a later fix is discarded when it moved at most 5 m, and
otherwise extends the path, distance, calories, speed and loop accounting
(a loop closes when the accumulator, after adding the segment, exceeds
100 m and the fix is within 30 m of the start position). -/
noncomputable def processFix (s : Session) (position : Coordinates) : Session :=
  if !s.state.isTracking || s.state.isPaused then s
  else
    match s.lastPosition with
    | some lastPos =>
      let segmentDistance := calculateDistance lastPos position
      if 5 < segmentDistance then
        let newDistance := s.state.distance + segmentDistance
        let newPath := s.state.path ++ [position]
        let newCalories := calculateCaloriesOpt s.state.activityType s.state.duration newDistance
        let newLoopAcc := s.loopCheckDistance + segmentDistance
        let newLoops : ℕ :=
          match s.startPosition with
          | some startPos =>
            if 100 < newLoopAcc ∧ calculateDistance position startPos < 30 then
              s.state.loops + 1
            else s.state.loops
          | none => s.state.loops
        let newLoopCheck : ℝ :=
          match s.startPosition with
          | some startPos =>
            if 100 < newLoopAcc ∧ calculateDistance position startPos < 30 then 0
            else newLoopAcc
          | none => newLoopAcc
        { state := { s.state with
            path := newPath
            distance := newDistance
            calories := newCalories
            loops := newLoops
            currentSpeed := position.speed.getD segmentDistance }
          lastPosition := some position
          startPosition := s.startPosition
          loopCheckDistance := newLoopCheck }
      else s
    | none =>
      { state := { s.state with path := [position] }
        lastPosition := some position
        startPosition := some position
        loopCheckDistance := s.loopCheckDistance }

/-- The one-second duration timer tick of `useActivityTracking.ts` (lines
170-190), run while tracking and not paused. -/
noncomputable def durationTick (s : Session) : Session :=
  if s.state.isTracking && !s.state.isPaused then
    { s with state := { s.state with
        duration := s.state.duration + 1
        calories := calculateCaloriesOpt s.state.activityType (s.state.duration + 1)
          s.state.distance } }
  else s

/-- The error codes of a `GeolocationPositionError`, plus a case for values
whose `code` matches none of the three standard codes. -/
inductive GeoErrorCode where
  | permissionDenied
  | positionUnavailable
  | timeout
  | unknown
deriving DecidableEq

/-- The classified message produced by the `catch` branch of `startActivity`. -/
def geoErrorMessage : GeoErrorCode → String
  | .permissionDenied => "Location permission denied. Enable GPS access."
  | .positionUnavailable => "Location unavailable. Check GPS signal."
  | .timeout => "Location request timed out. Try moving to an open area."
  | .unknown => "Failed to get GPS position."

/-- The value `startActivity` resolves with. -/
inductive StartResult where
  | success (startPosition : Coordinates)
  | failure (error : String)

/-- `startActivity` of `useActivityTracking.ts`.  The outcome of the one-shot
`getCurrentPosition()` call and the cached continuous-stream fix (`position`)
are explicit inputs.  A failed one-shot query falls back to the cached fix
when one exists; only when both are missing does the call fail, returning the
classified error message and leaving the session untouched. -/
noncomputable def startActivity (oneShot : Except GeoErrorCode Coordinates)
    (watchPosition : Option Coordinates) (ty : ActivityType) (now : ℝ)
    (s : Session) : Session × StartResult :=
  let resolved : Except GeoErrorCode Coordinates :=
    match oneShot with
    | .ok p => .ok p
    | .error e =>
      match watchPosition with
      | some p => .ok p
      | none => .error e
  match resolved with
  | .ok currentPos =>
    ({ state := { isTracking := true, isPaused := false, activityType := some ty
                  path := [currentPos], distance := 0, duration := 0, calories := 0
                  loops := 0, startTime := some now, currentSpeed := 0 }
       lastPosition := some currentPos
       startPosition := some currentPos
       loopCheckDistance := 0 },
     .success currentPos)
  | .error e => (s, .failure (geoErrorMessage e))

/-- `pauseActivity` of `useActivityTracking.ts`: unconditionally sets
`isPaused` on the React state (the refs are untouched). -/
def pauseActivity (s : Session) : Session :=
  { s with state := { s.state with isPaused := true } }

/-- `resumeActivity` of `useActivityTracking.ts`. -/
def resumeActivity (s : Session) : Session :=
  { s with state := { s.state with isPaused := false } }

/-- The record `stopActivity` resolves with (the fields of its `result`
value; `persisted` records whether the external insert succeeded — on
failure the source only logs and the `activity` row is `null`). -/
structure StopResult where
  distance : ℝ
  duration : ℕ
  calories : ℝ
  loops : ℕ
  xpEarned : ℤ
  path : List Coordinates
  persisted : Bool

/-- `stopActivity` of `useActivityTracking.ts`.  `hasUser` is whether an
authenticated user is present (the hook returns `null` early without one,
product plumbing outside the tracking core), and `persistFails` is the
outcome of the external Supabase insert.  A persistence failure is only
logged: the finalize-and-reset path runs in both cases. -/
noncomputable def stopActivity (hasUser : Bool) (persistFails : Bool)
    (s : Session) : Session × Option StopResult :=
  if hasUser = false ∨ s.state.activityType = none then (s, none)
  else
    let xpEarned : ℤ := ⌊s.state.distance / 100⌋ * 10 + (s.state.loops : ℤ) * 50
    let result : StopResult :=
      { distance := s.state.distance
        duration := s.state.duration
        calories := s.state.calories
        loops := s.state.loops
        xpEarned := xpEarned
        path := s.state.path
        persisted := !persistFails }
    ({ state := { isTracking := false, isPaused := false, activityType := none
                  path := [], distance := 0, duration := 0, calories := 0
                  loops := 0, startTime := none, currentSpeed := 0 }
       lastPosition := none
       startPosition := none
       loopCheckDistance := 0 },
     some result)

/-! ## Characterizing `processFix` -/

/-- An accepted fix (moved more than 5 m, session tracking and unpaused,
both position refs set): the explicit successor session. -/
theorem processFix_accepted (st : ActivityState) (lp sp : Coordinates) (acc : ℝ)
    (f : Coordinates) (hT : st.isTracking = true) (hP : st.isPaused = false)
    (hseg : 5 < calculateDistance lp f) :
    processFix ⟨st, some lp, some sp, acc⟩ f =
      ⟨{ st with
          path := st.path ++ [f]
          distance := st.distance + calculateDistance lp f
          calories := calculateCaloriesOpt st.activityType st.duration
            (st.distance + calculateDistance lp f)
          loops := if 100 < acc + calculateDistance lp f ∧ calculateDistance f sp < 30
            then st.loops + 1 else st.loops
          currentSpeed := f.speed.getD (calculateDistance lp f) },
        some f, some sp,
        if 100 < acc + calculateDistance lp f ∧ calculateDistance f sp < 30 then 0
        else acc + calculateDistance lp f⟩ := by
  simp only [processFix, hT, hP, Bool.not_true, Bool.false_or, Bool.false_eq_true,
    if_false, if_pos hseg]

/-- A fix that moved at most 5 m from the last accepted position is discarded
outright: the session is returned unchanged (whatever the tracking flags). -/
theorem processFix_rejected (s : Session) (lp f : Coordinates)
    (hlast : s.lastPosition = some lp) (hseg : calculateDistance lp f ≤ 5) :
    processFix s f = s := by
  unfold processFix
  by_cases hg : (!s.state.isTracking || s.state.isPaused) = true
  · rw [if_pos hg]
  · rw [if_neg hg, hlast]
    simp only [if_neg (not_lt.mpr hseg)]

/-! ## Claim theorems -/

/-- C6: for valid coordinate pairs (latitude in [-90,90], longitude in
[-180,180]) both haversine implementations are symmetric, return 0 on
identical points, and are non-negative. -/
theorem claim_C6_distance_symm_ident_nonneg (a b : LatLng) (c1 c2 : Coordinates)
    (ha1 : a.lat ∈ Set.Icc (-90 : ℝ) 90) (ha2 : a.lng ∈ Set.Icc (-180 : ℝ) 180)
    (hb1 : b.lat ∈ Set.Icc (-90 : ℝ) 90) (hb2 : b.lng ∈ Set.Icc (-180 : ℝ) 180)
    (hc11 : c1.lat ∈ Set.Icc (-90 : ℝ) 90) (hc12 : c1.lng ∈ Set.Icc (-180 : ℝ) 180)
    (hc21 : c2.lat ∈ Set.Icc (-90 : ℝ) 90) (hc22 : c2.lng ∈ Set.Icc (-180 : ℝ) 180) :
    haversineDistanceMeters a b = haversineDistanceMeters b a ∧
    haversineDistanceMeters a a = 0 ∧
    0 ≤ haversineDistanceMeters a b ∧
    calculateDistance c1 c2 = calculateDistance c2 c1 ∧
    calculateDistance c1 c1 = 0 ∧
    0 ≤ calculateDistance c1 c2 :=
  ⟨haversineDistanceMeters_comm a b, haversineDistanceMeters_self a,
    haversineDistanceMeters_nonneg a b, calculateDistance_comm c1 c2,
    calculateDistance_self c1, calculateDistance_nonneg c1 c2⟩

/-- Witness for C6 at the NYC test points of `mapAlgorithms.test.ts`. -/
theorem claim_C6_witness :
    haversineDistanceMeters ⟨40.7128, -74.006⟩ ⟨40.7138, -74.005⟩ =
      haversineDistanceMeters ⟨40.7138, -74.005⟩ ⟨40.7128, -74.006⟩ ∧
    haversineDistanceMeters ⟨40.7128, -74.006⟩ ⟨40.7128, -74.006⟩ = 0 ∧
    0 ≤ haversineDistanceMeters ⟨40.7128, -74.006⟩ ⟨40.7138, -74.005⟩ ∧
    calculateDistance (mkCoord 40.7128 (-74.006)) (mkCoord 40.7138 (-74.005)) =
      calculateDistance (mkCoord 40.7138 (-74.005)) (mkCoord 40.7128 (-74.006)) ∧
    calculateDistance (mkCoord 40.7128 (-74.006)) (mkCoord 40.7128 (-74.006)) = 0 ∧
    0 ≤ calculateDistance (mkCoord 40.7128 (-74.006)) (mkCoord 40.7138 (-74.005)) :=
  claim_C6_distance_symm_ident_nonneg ⟨40.7128, -74.006⟩ ⟨40.7138, -74.005⟩
    (mkCoord 40.7128 (-74.006)) (mkCoord 40.7138 (-74.005))
    (Set.mem_Icc.mpr (by norm_num)) (Set.mem_Icc.mpr (by norm_num))
    (Set.mem_Icc.mpr (by norm_num)) (Set.mem_Icc.mpr (by norm_num))
    (Set.mem_Icc.mpr (by norm_num [mkCoord])) (Set.mem_Icc.mpr (by norm_num [mkCoord]))
    (Set.mem_Icc.mpr (by norm_num [mkCoord])) (Set.mem_Icc.mpr (by norm_num [mkCoord]))

/-- C7: in the real-number model of the two haversine computations, every
intermediate stays inside the domain of the partial operations involved —
the radicand is in [0,1] (so are the square roots, so `asin` and the second
radicand `1 - a` are in-domain) — and both distances are totally defined,
non-negative and bounded by half the Earth circumference.  `NaN` in the
JavaScript source could only arise from `sqrt` of a negative number or
`asin` outside [-1,1]; neither can occur, for any finite inputs. -/
theorem claim_C7_no_nan (a b : LatLng) (c1 c2 : Coordinates) :
    haversineH a b ∈ Set.Icc (0 : ℝ) 1 ∧
    Real.sqrt (haversineH a b) ≤ 1 ∧
    calculateDistanceA c1 c2 ∈ Set.Icc (0 : ℝ) 1 ∧
    0 ≤ 1 - calculateDistanceA c1 c2 ∧
    0 ≤ haversineDistanceMeters a b ∧
    haversineDistanceMeters a b ≤ 6371e3 * Real.pi ∧
    0 ≤ calculateDistance c1 c2 ∧
    calculateDistance c1 c2 ≤ 6371000 * Real.pi := by
  have h1 := haversineH_mem_Icc a b
  have h2 := calculateDistanceA_mem_Icc c1 c2
  refine ⟨h1, ?_, h2, ?_, haversineDistanceMeters_nonneg a b,
    haversineDistanceMeters_le a b, calculateDistance_nonneg c1 c2,
    calculateDistance_le c1 c2⟩
  · rw [show (1 : ℝ) = Real.sqrt 1 by rw [Real.sqrt_one]]
    exact Real.sqrt_le_sqrt h1.2
  · linarith [h2.2]

/-- C8: the Web-Mercator projection first clamps the latitude to
±85.05112878 degrees; the clamped sine stays strictly inside (-1, 1), so
the argument of `log` is strictly positive and the returned x and y are the
(totally defined, finite) real values below, for every input point and
every zoom level. -/
theorem claim_C8_projection_clamped_finite (p : LatLng) (zoom : ℕ) :
    max (-85.05112878) (min 85.05112878 p.lat) ∈ Set.Icc (-85.05112878 : ℝ) 85.05112878 ∧
    -1 < Real.sin (max (-85.05112878) (min 85.05112878 p.lat) * Real.pi / 180) ∧
    Real.sin (max (-85.05112878) (min 85.05112878 p.lat) * Real.pi / 180) < 1 ∧
    0 < (1 + Real.sin (max (-85.05112878) (min 85.05112878 p.lat) * Real.pi / 180)) /
      (1 - Real.sin (max (-85.05112878) (min 85.05112878 p.lat) * Real.pi / 180)) ∧
    (latLngToWorldPoint p zoom).x = (p.lng + 180) / 360 * (TILE_SIZE * 2 ^ zoom) ∧
    (latLngToWorldPoint p zoom).y =
      (0.5 - Real.log ((1 + Real.sin (max (-85.05112878) (min 85.05112878 p.lat) * Real.pi / 180)) /
        (1 - Real.sin (max (-85.05112878) (min 85.05112878 p.lat) * Real.pi / 180))) /
        (4 * Real.pi)) * (TILE_SIZE * 2 ^ zoom) := by
  have hpi := Real.pi_pos
  set cl : ℝ := max (-85.05112878) (min 85.05112878 p.lat) with hcl
  have hmem : cl ∈ Set.Icc (-85.05112878 : ℝ) 85.05112878 := by
    constructor
    · exact le_max_left _ _
    · exact max_le (by norm_num) (min_le_left _ _)
  have hub : cl * Real.pi / 180 < Real.pi / 2 := by
    have h := hmem.2
    nlinarith
  have hlb : -(Real.pi / 2) < cl * Real.pi / 180 := by
    have h := hmem.1
    nlinarith
  have hsub : Real.sin (cl * Real.pi / 180) < 1 := by
    rw [← Real.sin_pi_div_two]
    exact Real.strictMonoOn_sin (Set.mem_Icc.mpr ⟨hlb.le, hub.le⟩)
      (Set.mem_Icc.mpr ⟨by linarith, le_refl _⟩) hub
  have hslb : -1 < Real.sin (cl * Real.pi / 180) := by
    have hs : Real.sin (-(Real.pi / 2)) = -1 := by
      rw [Real.sin_neg, Real.sin_pi_div_two]
    rw [← hs]
    exact Real.strictMonoOn_sin (Set.mem_Icc.mpr ⟨le_refl _, by linarith⟩)
      (Set.mem_Icc.mpr ⟨hlb.le, hub.le⟩) hlb
  refine ⟨hmem, hslb, hsub, div_pos (by linarith) (by linarith), rfl, rfl⟩

/-- C9: for any smoothing coefficient α in (0,1], `smoothGpsPath` returns a
path of length at most 2 unchanged; on longer paths it keeps the length,
passes the first fix through unchanged, and every later output element is
`previous smoothed + α * (raw - previous smoothed)` per coordinate with
`accuracy` and `timestamp` copied from the raw fix at the same index. -/
theorem claim_C9_smoothing (path : List Coordinates) (alpha : ℝ)
    (halpha : alpha ∈ Set.Ioc (0 : ℝ) 1) :
    (path.length ≤ 2 → smoothGpsPath path alpha = path) ∧
    (2 < path.length →
      (smoothGpsPath path alpha).length = path.length ∧
      (smoothGpsPath path alpha)[0]? = path[0]? ∧
      ∀ (i : ℕ) (a b c : Coordinates),
        (smoothGpsPath path alpha)[i]? = some a →
        (smoothGpsPath path alpha)[i + 1]? = some b →
        path[i + 1]? = some c →
        b.lat = a.lat + alpha * (c.lat - a.lat) ∧
        b.lng = a.lng + alpha * (c.lng - a.lng) ∧
        b.accuracy = c.accuracy ∧
        b.timestamp = c.timestamp) := by
  constructor
  · intro hle
    unfold smoothGpsPath
    rw [if_pos hle]
  · intro hgt
    have hne : path ≠ [] := by
      intro h
      rw [h] at hgt
      simp at hgt
    obtain ⟨p0, rest, rfl⟩ := List.exists_cons_of_ne_nil hne
    have hsm : smoothGpsPath (p0 :: rest) alpha = p0 :: smoothFrom alpha p0 rest := by
      unfold smoothGpsPath
      rw [if_neg (not_le.mpr hgt)]
    refine ⟨?_, ?_, ?_⟩
    · rw [hsm]
      simp [smoothFrom_length]
    · rw [hsm]
      simp
    · intro i a b c hA hB hC
      rw [hsm] at hA hB
      rw [List.getElem?_cons_succ] at hC
      have hstep := smoothFrom_consecutive alpha rest p0 i a b c hA hB hC
      rw [hstep]
      exact ⟨rfl, rfl, rfl, rfl⟩

/-- Witness for C9: a two-point path is returned unchanged at α = 0.35. -/
theorem claim_C9_witness :
    smoothGpsPath [mkCoord 1 2, mkCoord 3 4] 0.35 = [mkCoord 1 2, mkCoord 3 4] :=
  (claim_C9_smoothing [mkCoord 1 2, mkCoord 3 4] 0.35
    (Set.mem_Ioc.mpr (by norm_num))).1 (by simp)

/-- C10: `rankNearbyPlaces` is the stable descending-by-score sort of the
annotated candidates, truncated to the limit.  Every returned place carries
the haversine distance from the reference point and the weighted score
`distanceScore * 0.6 + ratingScore * 0.25 + categoryWeight * 0.15`, and is
one of the input candidates, unmodified (the function is pure, so the input
list is not mutated).  The output is sorted by descending score, and the
sort is stable: any two annotated candidates in input order whose scores
already satisfy the comparator stay in that order. -/
theorem claim_C10_ranking (user : LatLng) (places : List PlaceCandidate) (limit : ℕ) :
    rankNearbyPlaces user places limit =
      ((places.map (annotate user)).mergeSort rankLE).take limit ∧
    (rankNearbyPlaces user places limit).length = min limit places.length ∧
    (∀ r ∈ rankNearbyPlaces user places limit,
      r.toPlaceCandidate ∈ places ∧
      r.distanceMeters = haversineDistanceMeters user r.location ∧
      r.score = 1 / (1 + r.distanceMeters / 1000) * 0.6 +
        r.rating.getD 4 / 5 * 0.25 + typeWeight r.type * 0.15) ∧
    (rankNearbyPlaces user places limit).Pairwise (fun x y => y.score ≤ x.score) ∧
    (∀ x y : RankedPlace, List.Sublist [x, y] (places.map (annotate user)) →
      y.score ≤ x.score →
      List.Sublist [x, y] ((places.map (annotate user)).mergeSort rankLE)) := by
  refine ⟨rfl, ?_, ?_, ?_, ?_⟩
  · unfold rankNearbyPlaces
    rw [List.length_take, List.length_mergeSort, List.length_map]
  · intro r hr
    have hr2 : r ∈ (places.map (annotate user)).mergeSort rankLE :=
      List.mem_of_mem_take hr
    rw [List.mem_mergeSort] at hr2
    obtain ⟨p, hp, hpr⟩ := List.mem_map.mp hr2
    subst hpr
    refine ⟨hp, rfl, ?_⟩
    simp only [annotate]
  · have hs := List.sorted_mergeSort rankLE_trans rankLE_total (places.map (annotate user))
    have hs2 := hs.sublist (List.take_sublist limit _)
    exact hs2.imp (by
      intro x y h
      simpa [rankLE] using h)
  · intro x y hsub hxy
    exact List.pair_sublist_mergeSort rankLE_trans rankLE_total
      (by simpa [rankLE] using hxy) hsub

/-- An accepted fix that closes a loop (accumulator past 100 m after the
segment, within 30 m of the start): loops increment, accumulator resets. -/
theorem processFix_loop_closed (st : ActivityState) (lp sp : Coordinates) (acc : ℝ)
    (f : Coordinates) (hT : st.isTracking = true) (hP : st.isPaused = false)
    (hseg : 5 < calculateDistance lp f)
    (hacc : 100 < acc + calculateDistance lp f)
    (hclose : calculateDistance f sp < 30) :
    processFix ⟨st, some lp, some sp, acc⟩ f =
      ⟨{ st with
          path := st.path ++ [f]
          distance := st.distance + calculateDistance lp f
          calories := calculateCaloriesOpt st.activityType st.duration
            (st.distance + calculateDistance lp f)
          loops := st.loops + 1
          currentSpeed := f.speed.getD (calculateDistance lp f) },
        some f, some sp, 0⟩ := by
  rw [processFix_accepted st lp sp acc f hT hP hseg, if_pos ⟨hacc, hclose⟩,
    if_pos ⟨hacc, hclose⟩]

/-- An accepted fix that does not close a loop: loops unchanged, the segment
is added to the accumulator. -/
theorem processFix_no_loop (st : ActivityState) (lp sp : Coordinates) (acc : ℝ)
    (f : Coordinates) (hT : st.isTracking = true) (hP : st.isPaused = false)
    (hseg : 5 < calculateDistance lp f)
    (hno : ¬(100 < acc + calculateDistance lp f ∧ calculateDistance f sp < 30)) :
    processFix ⟨st, some lp, some sp, acc⟩ f =
      ⟨{ st with
          path := st.path ++ [f]
          distance := st.distance + calculateDistance lp f
          calories := calculateCaloriesOpt st.activityType st.duration
            (st.distance + calculateDistance lp f)
          loops := st.loops
          currentSpeed := f.speed.getD (calculateDistance lp f) },
        some f, some sp, acc + calculateDistance lp f⟩ := by
  rw [processFix_accepted st lp sp acc f hT hP hseg, if_neg hno, if_neg hno]

/-- C1: in Tracking(Active), an accepted fix whose segment pushes the loop
accumulator past 100 m and which lies within 30 m of the start fix
increments `loops` by exactly one, resets the loop accumulator to 0 and does
not reset the cumulative distance (the segment is still added); a subsequent
accepted fix again within 30 m of the start, whose segment does not give the
(reset) accumulator more than 100 m, does not increment `loops` again. -/
theorem claim_C1_loop_single_increment (st : ActivityState) (P S f g : Coordinates)
    (acc : ℝ)
    (hT : st.isTracking = true) (hP : st.isPaused = false)
    (hseg : 5 < calculateDistance P f)
    (hacc : 100 < acc + calculateDistance P f)
    (hclose : calculateDistance f S < 30)
    (hseg2 : 5 < calculateDistance f g)
    (hacc2 : calculateDistance f g ≤ 100)
    (hclose2 : calculateDistance g S < 30) :
    (processFix ⟨st, some P, some S, acc⟩ f).state.loops = st.loops + 1 ∧
    (processFix ⟨st, some P, some S, acc⟩ f).loopCheckDistance = 0 ∧
    (processFix ⟨st, some P, some S, acc⟩ f).state.distance =
      st.distance + calculateDistance P f ∧
    (processFix (processFix ⟨st, some P, some S, acc⟩ f) g).state.loops =
      st.loops + 1 := by
  rw [processFix_loop_closed st P S acc f hT hP hseg hacc hclose]
  refine ⟨rfl, rfl, rfl, ?_⟩
  have hno : ¬(100 < (0 : ℝ) + calculateDistance f g ∧ calculateDistance g S < 30) := by
    intro hcon
    linarith [hcon.1]
  rw [processFix_no_loop
    { st with
        path := st.path ++ [f]
        distance := st.distance + calculateDistance P f
        calories := calculateCaloriesOpt st.activityType st.duration
          (st.distance + calculateDistance P f)
        loops := st.loops + 1
        currentSpeed := f.speed.getD (calculateDistance P f) }
    f S 0 g hT hP hseg2 hno]

/-- A concrete idle session (the hook's initial state). -/
def idleSession : Session :=
  { state := { isTracking := false, isPaused := false, activityType := none
               path := [], distance := 0, duration := 0, calories := 0
               loops := 0, startTime := none, currentSpeed := 0 }
    lastPosition := none
    startPosition := none
    loopCheckDistance := 0 }

/-- A concrete mid-activity React state: tracking a run along the equator,
started at longitude 0, last accepted fix at longitude 0.001. -/
noncomputable def trackState : ActivityState :=
  { isTracking := true, isPaused := false, activityType := some .run
    path := [mkCoord 0 0, mkCoord 0 0.001], distance := 111, duration := 42
    calories := 0, loops := 0, startTime := some 0, currentSpeed := 0 }

/-- The corresponding concrete session (refs included). -/
noncomputable def trackSession : Session :=
  { state := trackState
    lastPosition := some (mkCoord 0 0.001)
    startPosition := some (mkCoord 0 0)
    loopCheckDistance := 0 }

/-- Witness for C1: along the equator, from last fix at longitude 0.001°
(≈ 100.08 m from the incoming fix at 0.0001°, ≈ 11.1 m from the start at 0°),
the fix closes a loop; the following fix at 0.0002° (≈ 11.1 m further,
≈ 22.2 m from the start) does not close another one. -/
theorem claim_C1_witness :
    (processFix ⟨trackState, some (mkCoord 0 0.001), some (mkCoord 0 0), 0⟩
      (mkCoord 0 0.0001)).state.loops = trackState.loops + 1 ∧
    (processFix ⟨trackState, some (mkCoord 0 0.001), some (mkCoord 0 0), 0⟩
      (mkCoord 0 0.0001)).loopCheckDistance = 0 ∧
    (processFix ⟨trackState, some (mkCoord 0 0.001), some (mkCoord 0 0), 0⟩
      (mkCoord 0 0.0001)).state.distance =
      trackState.distance + calculateDistance (mkCoord 0 0.001) (mkCoord 0 0.0001) ∧
    (processFix (processFix ⟨trackState, some (mkCoord 0 0.001), some (mkCoord 0 0), 0⟩
      (mkCoord 0 0.0001)) (mkCoord 0 0.0002)).state.loops = trackState.loops + 1 :=
  claim_C1_loop_single_increment trackState (mkCoord 0 0.001) (mkCoord 0 0)
    (mkCoord 0 0.0001) (mkCoord 0 0.0002) 0 rfl rfl
    (by
      rw [calculateDistance_comm,
        calculateDistance_equator 0.0001 0.001 (by norm_num) (by norm_num)]
      nlinarith [Real.pi_gt_d6])
    (by
      rw [calculateDistance_comm,
        calculateDistance_equator 0.0001 0.001 (by norm_num) (by norm_num)]
      nlinarith [Real.pi_gt_d6])
    (by
      rw [calculateDistance_comm,
        calculateDistance_equator 0 0.0001 (by norm_num) (by norm_num)]
      nlinarith [Real.pi_lt_d2])
    (by
      rw [calculateDistance_equator 0.0001 0.0002 (by norm_num) (by norm_num)]
      nlinarith [Real.pi_gt_d6])
    (by
      rw [calculateDistance_equator 0.0001 0.0002 (by norm_num) (by norm_num)]
      nlinarith [Real.pi_lt_d2])
    (by
      rw [calculateDistance_comm,
        calculateDistance_equator 0 0.0002 (by norm_num) (by norm_num)]
      nlinarith [Real.pi_lt_d2])

/-- C2: while Tracking(Active) with a last accepted fix `P`, an incoming fix
at most 5 m (haversine) from `P` is discarded: the session — in particular
`distance`, `path`, the last accepted fix, `loops` and the loop
accumulator — is unchanged. -/
theorem claim_C2_noise_fix_discarded (s : Session) (P f : Coordinates)
    (hT : s.state.isTracking = true) (hP : s.state.isPaused = false)
    (hlast : s.lastPosition = some P)
    (hseg : calculateDistance P f ≤ 5) :
    processFix s f = s ∧
    (processFix s f).state.distance = s.state.distance ∧
    (processFix s f).state.path = s.state.path ∧
    (processFix s f).lastPosition = s.lastPosition ∧
    (processFix s f).state.loops = s.state.loops ∧
    (processFix s f).loopCheckDistance = s.loopCheckDistance := by
  have h := processFix_rejected s P f hlast hseg
  exact ⟨h, by rw [h], by rw [h], by rw [h], by rw [h], by rw [h]⟩

/-- Witness for C2: the incoming fix coincides with the last accepted fix
(segment distance 0 ≤ 5), so the concrete tracking session is unchanged. -/
theorem claim_C2_witness :
    processFix trackSession (mkCoord 0 0.001) = trackSession ∧
    (processFix trackSession (mkCoord 0 0.001)).state.distance =
      trackSession.state.distance ∧
    (processFix trackSession (mkCoord 0 0.001)).state.path =
      trackSession.state.path ∧
    (processFix trackSession (mkCoord 0 0.001)).lastPosition =
      trackSession.lastPosition ∧
    (processFix trackSession (mkCoord 0 0.001)).state.loops =
      trackSession.state.loops ∧
    (processFix trackSession (mkCoord 0 0.001)).loopCheckDistance =
      trackSession.loopCheckDistance :=
  claim_C2_noise_fix_discarded trackSession (mkCoord 0 0.001) (mkCoord 0 0.001)
    rfl rfl rfl
    (by rw [calculateDistance_self]; norm_num)

/-- C3: `startActivity` fails — returning the classified error message and
leaving the session exactly as before — precisely when the one-shot
position query fails and no cached continuous-stream fix exists; if the
one-shot query fails but a cached fix is present, the call succeeds using
the cached fix as the starting position. -/
theorem claim_C3_start_error_handling (oneShot : Except GeoErrorCode Coordinates)
    (watchPosition : Option Coordinates) (ty : ActivityType) (now : ℝ) (s : Session) :
    (∀ e, oneShot = .error e → watchPosition = none →
      startActivity oneShot watchPosition ty now s = (s, .failure (geoErrorMessage e))) ∧
    (∀ e p, oneShot = .error e → watchPosition = some p →
      (startActivity oneShot watchPosition ty now s).2 = .success p ∧
      (startActivity oneShot watchPosition ty now s).1.state.isTracking = true ∧
      (startActivity oneShot watchPosition ty now s).1.state.path = [p] ∧
      (startActivity oneShot watchPosition ty now s).1.lastPosition = some p ∧
      (startActivity oneShot watchPosition ty now s).1.startPosition = some p) ∧
    (∀ p, oneShot = .ok p →
      (startActivity oneShot watchPosition ty now s).2 = .success p) ∧
    (∀ m, (startActivity oneShot watchPosition ty now s).2 = .failure m →
      (∃ e, oneShot = .error e ∧ m = geoErrorMessage e) ∧ watchPosition = none ∧
      (startActivity oneShot watchPosition ty now s).1 = s) := by
  refine ⟨?_, ?_, ?_, ?_⟩
  · intro e he hw
    subst he
    subst hw
    rfl
  · intro e p he hw
    subst he
    subst hw
    exact ⟨rfl, rfl, rfl, rfl, rfl⟩
  · intro p hp
    subst hp
    rfl
  · intro m hm
    match hos : oneShot, hwp : watchPosition with
    | .ok p, w =>
      simp [startActivity] at hm
    | .error e, some p =>
      simp [startActivity] at hm
    | .error e, none =>
      simp only [startActivity] at hm
      refine ⟨⟨e, rfl, ?_⟩, rfl, rfl⟩
      injection hm with hmsg
      exact hmsg.symm

/-- Witness for C3: with a failed one-shot query and no cached fix the call
fails with the classified timeout message and the idle session is unchanged;
with a cached fix present the same failed query still starts tracking from
the cached fix. -/
theorem claim_C3_witness :
    startActivity (Except.error GeoErrorCode.timeout) none ActivityType.run 0 idleSession =
      (idleSession, .failure (geoErrorMessage GeoErrorCode.timeout)) ∧
    (startActivity (Except.error GeoErrorCode.timeout) (some (mkCoord 1 2))
      ActivityType.run 0 idleSession).2 = .success (mkCoord 1 2) ∧
    (startActivity (Except.error GeoErrorCode.timeout) (some (mkCoord 1 2))
      ActivityType.run 0 idleSession).1.state.isTracking = true :=
  ⟨(claim_C3_start_error_handling (Except.error GeoErrorCode.timeout) none
      ActivityType.run 0 idleSession).1 GeoErrorCode.timeout rfl rfl,
   ((claim_C3_start_error_handling (Except.error GeoErrorCode.timeout) (some (mkCoord 1 2))
      ActivityType.run 0 idleSession).2.1 GeoErrorCode.timeout (mkCoord 1 2) rfl rfl).1,
   ((claim_C3_start_error_handling (Except.error GeoErrorCode.timeout) (some (mkCoord 1 2))
      ActivityType.run 0 idleSession).2.1 GeoErrorCode.timeout (mkCoord 1 2) rfl rfl).2.1⟩

/-- Counterexample for C4 as stated: calling `pauseActivity` on the idle
session does change a field — it sets `isPaused` to `true`, so the session
is not left unchanged. -/
theorem claim_C4_counterexample : pauseActivity idleSession ≠ idleSession := by
  intro h
  have h2 := congrArg (fun s => s.state.isPaused) h
  simp [pauseActivity, idleSession] at h2

/-- C4 (amended): `pauseActivity` never raises and, from any state (in
particular Idle), changes nothing except the `isPaused` flag, which it
unconditionally sets to `true`; after the call, incoming fixes are still
discarded (with `isPaused = true` the fix-processing guard always rejects),
so pausing from an invalid state has no further observable effect. -/
theorem claim_C4_pause_updates_only_isPaused (s : Session) (f : Coordinates) :
    (pauseActivity s).state.isPaused = true ∧
    (pauseActivity s).state.isTracking = s.state.isTracking ∧
    (pauseActivity s).state.activityType = s.state.activityType ∧
    (pauseActivity s).state.path = s.state.path ∧
    (pauseActivity s).state.distance = s.state.distance ∧
    (pauseActivity s).state.duration = s.state.duration ∧
    (pauseActivity s).state.calories = s.state.calories ∧
    (pauseActivity s).state.loops = s.state.loops ∧
    (pauseActivity s).state.startTime = s.state.startTime ∧
    (pauseActivity s).state.currentSpeed = s.state.currentSpeed ∧
    (pauseActivity s).lastPosition = s.lastPosition ∧
    (pauseActivity s).startPosition = s.startPosition ∧
    (pauseActivity s).loopCheckDistance = s.loopCheckDistance ∧
    processFix (pauseActivity s) f = pauseActivity s := by
  refine ⟨rfl, rfl, rfl, rfl, rfl, rfl, rfl, rfl, rfl, rfl, rfl, rfl, rfl, ?_⟩
  simp [processFix, pauseActivity]

/-- C5: from any tracking session (with an authenticated user), `stopActivity`
performs its in-memory finalize-and-reset whether or not the persistence
collaborator fails: the new session is fully reset and the finalized summary
is still produced. -/
theorem claim_C5_stop_resets_despite_persistence (persistFails : Bool) (s : Session)
    (k : ActivityType) (hT : s.state.isTracking = true)
    (hk : s.state.activityType = some k) :
    ((stopActivity true persistFails s).1).state.isTracking = false ∧
    ((stopActivity true persistFails s).1).state.isPaused = false ∧
    ((stopActivity true persistFails s).1).state.path = [] ∧
    ((stopActivity true persistFails s).1).state.distance = 0 ∧
    ((stopActivity true persistFails s).1).state.duration = 0 ∧
    ((stopActivity true persistFails s).1).state.loops = 0 ∧
    (stopActivity true persistFails s).2 =
      some { distance := s.state.distance, duration := s.state.duration
             calories := s.state.calories, loops := s.state.loops
             xpEarned := ⌊s.state.distance / 100⌋ * 10 + (s.state.loops : ℤ) * 50
             path := s.state.path, persisted := !persistFails } := by
  have hguard : ¬(true = false ∨ s.state.activityType = none) := by
    simp [hk]
  unfold stopActivity
  rw [if_neg hguard]
  exact ⟨rfl, rfl, rfl, rfl, rfl, rfl, rfl⟩

/-- Witness for C5, with the persistence collaborator failing
(`persistFails = true`): the concrete tracking session is still reset. -/
theorem claim_C5_witness :
    ((stopActivity true true trackSession).1).state.isTracking = false ∧
    ((stopActivity true true trackSession).1).state.isPaused = false ∧
    ((stopActivity true true trackSession).1).state.path = [] ∧
    ((stopActivity true true trackSession).1).state.distance = 0 ∧
    ((stopActivity true true trackSession).1).state.duration = 0 ∧
    ((stopActivity true true trackSession).1).state.loops = 0 ∧
    (stopActivity true true trackSession).2 =
      some { distance := trackSession.state.distance
             duration := trackSession.state.duration
             calories := trackSession.state.calories
             loops := trackSession.state.loops
             xpEarned := ⌊trackSession.state.distance / 100⌋ * 10 +
               (trackSession.state.loops : ℤ) * 50
             path := trackSession.state.path
             persisted := !true } :=
  claim_C5_stop_resets_despite_persistence true trackSession ActivityType.run rfl rfl
